import Mathlib

/-!
Verification of `src/webview/webview2/sync_ipc.rs`: the WebView2 synchronous
IPC dispatch adapter (`SyncIPCHandler`).  The Rust source is shallowly
embedded: COM strings (`BSTR`) are lists of UTF-16 code units (`List Nat`,
each unit below 2^16), Rust `String`s are lists of Unicode scalar values,
raw pointers to GUIDs are records carrying a null flag and the pointed-at
value, and the external Windows/OLE collaborators
(`LocaleNameToLCID`, `CreateDispTypeInfo`, `DispGetIDsOfNames`,
`DispInvoke`, `AddHostObjectToScript`) are modelled from their documented
contracts, with oracle parameters where the source only propagates their
success or failure.
-/

namespace SyncIPC

/-- Windows `VT_BSTR` variant-type tag. -/
def VT_BSTR : Nat := 8

/-- Windows `VT_DISPATCH` variant-type tag. -/
def VT_DISPATCH : Nat := 9

/-- Windows `CC_STDCALL` calling-convention tag. -/
def CC_STDCALL : Nat := 4

/-- Windows `DISPATCH_METHOD` invocation-kind flag. -/
def DISPATCH_METHOD : Nat := 1

/-- The all-zero default GUID (`GUID::default()` in the source), modelled as
the zero value of a 128-bit identifier. -/
def GUIDdefault : Nat := 0

/-- A raw `*const GUID`: either null, or pointing at a GUID value.  Reading
`pointee` models dereferencing the pointer. -/
structure RawGuidPtr where
  isNull : Bool
  pointee : Nat
deriving DecidableEq, Repr

/-- COM error outcomes used by the adapter, one constructor per HRESULT the
source produces or propagates. -/
inductive ComError where
  /-- `DISP_E_BADINDEX` -/
  | badIndex : ComError
  /-- `DISP_E_UNKNOWNINTERFACE` -/
  | unknownInterface : ComError
  /-- `DISP_E_UNKNOWNNAME`, produced by the OLE name-resolution routine. -/
  | unknownName : ComError
  /-- `DISP_E_MEMBERNOTFOUND`, produced by the OLE invocation routine. -/
  | memberNotFound : ComError
  /-- `DISP_E_BADPARAMCOUNT`, produced by the OLE invocation routine. -/
  | badParamCount : ComError
  /-- An arbitrary HRESULT wrapped as `webview2_com::Error::WindowsError`. -/
  | windowsError : Nat → ComError
deriving DecidableEq, Repr

/-- `PARAMDATA`: one parameter of a dispatch method (name and type tag). -/
structure PARAMDATA where
  szName : String
  vt : Nat
deriving DecidableEq, Repr

/-- `METHODDATA`: one method of a dispatch interface. -/
structure METHODDATA where
  szName : String
  ppdata : List PARAMDATA
  dispid : Int
  iMeth : Nat
  cc : Nat
  cArgs : Nat
  wFlags : Nat
  vtReturn : Nat
deriving DecidableEq, Repr

/-- `INTERFACEDATA`: the method table of a dispatch interface. -/
structure INTERFACEDATA where
  pmethdata : List METHODDATA
  cMembers : Nat
deriving DecidableEq, Repr

/-- The static `DISPATCH_INTERFACE_POST_SYNC_MESSAGE_PARAMS` table from
`SyncIPCHandler::new`: one string-typed parameter named `message`. -/
def DISPATCH_INTERFACE_POST_SYNC_MESSAGE_PARAMS : List PARAMDATA :=
  [{ szName := "message", vt := VT_BSTR }]

/-- The static `DISPATCH_INTERFACE_METHODS` table from `SyncIPCHandler::new`.
In the source `iMeth` is `size_of::<IUnknownVtbl>() / size_of::<fn()>() + 0`,
the three `IUnknown` slots, and `cArgs` is the length of this one-element
methods array. -/
def DISPATCH_INTERFACE_METHODS : List METHODDATA :=
  [{ szName := "PostSyncMessage",
     ppdata := DISPATCH_INTERFACE_POST_SYNC_MESSAGE_PARAMS,
     dispid := 0,
     iMeth := 3,
     cc := CC_STDCALL,
     cArgs := 1,
     wFlags := DISPATCH_METHOD,
     vtReturn := VT_BSTR }]

/-- The static `DISPATCH_INTERFACE` table from `SyncIPCHandler::new`. -/
def DISPATCH_INTERFACE : INTERFACEDATA :=
  { pmethdata := DISPATCH_INTERFACE_METHODS,
    cMembers := DISPATCH_INTERFACE_METHODS.length }

/-- The Windows `LOCALE_NAME_INVARIANT` constant: the empty locale name. -/
def LOCALE_NAME_INVARIANT : String := ""

/-- Modelled from the spec: the OS routine `LocaleNameToLCID` (external to
the repository).  The invariant locale name resolves to the fixed invariant
locale identifier `0x7F` regardless of the host machine locale; other names
resolve under the host locale environment. -/
def LocaleNameToLCID (hostLocale : Nat) (name : String) (_flags : Nat) : Nat :=
  if name = LOCALE_NAME_INVARIANT then 0x7F else hostLocale

/-- An `ITypeInfo` produced by `CreateDispTypeInfo`: the interface tables it
was built from together with the locale identifier it was built under. -/
structure TypeInfo where
  data : INTERFACEDATA
  lcid : Nat
deriving DecidableEq, Repr

/-- Modelled from the spec: the OLE routine `CreateDispTypeInfo` (external to
the repository) builds a type-information object from the interface tables
and a locale; `createErr` is an oracle for its failure HRESULT, since the
source only propagates success or failure. -/
def CreateDispTypeInfo (d : INTERFACEDATA) (lcid : Nat) (createErr : Option Nat) :
    Except ComError TypeInfo :=
  match createErr with
  | none => Except.ok { data := d, lcid := lcid }
  | some hr => Except.error (ComError.windowsError hr)

/-- The `SyncIPCHandler` struct: the constructed type information, the shared
window context (of abstract type `W`, standing for `Rc<Window>`), and the
native callback (`Box<dyn Fn(&Window, String) -> String>`, with Rust strings
as lists of Unicode scalar values). -/
structure SyncIPCHandler (W : Type) where
  type_info : TypeInfo
  window : W
  handler : W → List Nat → List Nat

/-- `SyncIPCHandler::new`: resolves the invariant locale, builds the type
information from the static `DISPATCH_INTERFACE` tables, and on success
returns the handler struct.  `hostLocale` is the host machine locale
environment and `createErr` the `CreateDispTypeInfo` failure oracle. -/
def SyncIPCHandler.new {W : Type} (hostLocale : Nat) (window : W)
    (handler : W → List Nat → List Nat) (createErr : Option Nat) :
    Except ComError (SyncIPCHandler W) :=
  let invariant_locale := LocaleNameToLCID hostLocale LOCALE_NAME_INVARIANT 0
  match CreateDispTypeInfo DISPATCH_INTERFACE invariant_locale createErr with
  | Except.ok type_info =>
      Except.ok { type_info := type_info, window := window, handler := handler }
  | Except.error e => Except.error e

/-- UTF-16 decoding exactly as Rust's `BSTR -> String` conversion
(`String::from_utf16`): basic-plane units pass through, a high surrogate
must be followed by a low surrogate (combined into a supplementary scalar),
and any unpaired surrogate fails the whole conversion. -/
def decodeUtf16 : List Nat → Option (List Nat)
  | [] => some []
  | [u] =>
      if u < 0xD800 || 0xE000 ≤ u then some [u] else none
  | u :: v :: rest =>
      if u < 0xD800 || 0xE000 ≤ u then
        (decodeUtf16 (v :: rest)).map (fun t => u :: t)
      else if u < 0xDC00 && (0xDC00 ≤ v && v < 0xE000) then
        (decodeUtf16 rest).map
          (fun t => (0x10000 + (u - 0xD800) * 0x400 + (v - 0xDC00)) :: t)
      else none

/-- UTF-16 encoding of one Unicode scalar value, as Rust's
`String -> BSTR` conversion (`encode_utf16`) performs per character. -/
def encodeUtf16Char (c : Nat) : List Nat :=
  if c < 0x10000 then [c]
  else [0xD800 + (c - 0x10000) / 0x400, 0xDC00 + (c - 0x10000) % 0x400]

/-- UTF-16 encoding of a Rust string (list of Unicode scalar values), as the
`String -> BSTR` conversion performs. -/
def encodeUtf16 (s : List Nat) : List Nat :=
  (s.map encodeUtf16Char).flatten

/-- `ISyncIPCHandler_Impl::PostSyncMessage`: try to decode the `BSTR`
message; on success call the native callback with the window context and
the decoded string and return its result re-encoded as a `BSTR`, on failure
return `BSTR::default()` (the empty string) without calling the callback.
Returns the `BSTR` result, the trace of callback invocations (each the
window context and decoded string passed), and the handler state after the
call (the method takes `&self` and assigns no field). -/
def SyncIPCHandler.PostSyncMessage {W : Type} (h : SyncIPCHandler W)
    (message : List Nat) :
    List Nat × List (W × List Nat) × SyncIPCHandler W :=
  match decodeUtf16 message with
  | some utf8_message =>
      (encodeUtf16 (h.handler h.window utf8_message), [(h.window, utf8_message)], h)
  | none => ([], [], h)

/-- `IDispatch_Impl::GetTypeInfoCount`: always `Ok(1)`.  The second
component is the handler state after the call. -/
def SyncIPCHandler.GetTypeInfoCount {W : Type} (h : SyncIPCHandler W) :
    Except ComError Nat × SyncIPCHandler W :=
  (Except.ok 1, h)

/-- `IDispatch_Impl::GetTypeInfo`: `DISP_E_BADINDEX` for any index other
than 0, otherwise a clone of the stored type information; the locale
argument is ignored.  The second component is the handler state after the
call. -/
def SyncIPCHandler.GetTypeInfo {W : Type} (h : SyncIPCHandler W)
    (itinfo : Nat) (_lcid : Nat) :
    Except ComError TypeInfo × SyncIPCHandler W :=
  (if itinfo ≠ 0 then Except.error ComError.badIndex
   else Except.ok h.type_info, h)

/-- Modelled from the spec: the OLE routine `DispGetIDsOfNames` (external to
the repository) resolves the first requested name against the descriptor's
method table to its dispatch id and the remaining names against that
method's parameter table to parameter indices; any undefined name fails the
whole call. -/
def DispGetIDsOfNames (ti : TypeInfo) (rgsznames : List String) (cnames : Nat) :
    Except ComError (List Int) :=
  match rgsznames.take cnames with
  | [] => Except.ok []
  | n :: rest =>
      match ti.data.pmethdata.find? (fun m => m.szName = n) with
      | none => Except.error ComError.unknownName
      | some m =>
          let pids := rest.map (fun p => m.ppdata.findIdx? (fun pd => pd.szName = p))
          if pids.all Option.isSome then
            Except.ok (m.dispid :: pids.map (fun o => Int.ofNat (o.getD 0)))
          else Except.error ComError.unknownName

/-- `IDispatch_Impl::GetIDsOfNames`: rejects a null `riid` pointer or any
pointed-at GUID other than the default GUID with `DISP_E_UNKNOWNINTERFACE`
(the null check short-circuits, so a null pointer is never dereferenced),
otherwise delegates to `DispGetIDsOfNames` on the stored type information;
the locale argument is ignored.  The middle component records whether the
call delegated to `DispGetIDsOfNames`; the last is the handler state after
the call. -/
def SyncIPCHandler.GetIDsOfNames {W : Type} (h : SyncIPCHandler W)
    (riid : RawGuidPtr) (rgsznames : List String) (cnames : Nat) (_lcid : Nat) :
    Except ComError (List Int) × Bool × SyncIPCHandler W :=
  if riid.isNull then (Except.error ComError.unknownInterface, false, h)
  else if riid.pointee ≠ GUIDdefault then
    (Except.error ComError.unknownInterface, false, h)
  else (DispGetIDsOfNames h.type_info rgsznames cnames, true, h)

/-- Modelled from the spec: the OLE routine `DispInvoke` (external to the
repository) binds the argument list against the descriptor entry whose
dispatch id matches, checks the invocation flags and arity, marshals the one
string argument, and calls the exposed method through the interface
reference, returning its result; binding failures are surfaced as
marshaling errors. -/
def DispInvoke {W : Type} (h : SyncIPCHandler W) (dispidmember : Int)
    (wflags : Nat) (args : List (List Nat)) : Except ComError (List Nat) :=
  match h.type_info.data.pmethdata.find? (fun m => m.dispid = dispidmember) with
  | none => Except.error ComError.memberNotFound
  | some m =>
      if Nat.land wflags m.wFlags = 0 then Except.error ComError.memberNotFound
      else if args.length ≠ m.cArgs then Except.error ComError.badParamCount
      else
        match args with
        | [msg] => Except.ok (h.PostSyncMessage msg).1
        | _ => Except.error ComError.badParamCount

/-- `IDispatch_Impl::Invoke`: rejects a null `riid` pointer or any
pointed-at GUID other than the default GUID with `DISP_E_UNKNOWNINTERFACE`
(the null check short-circuits, so a null pointer is never dereferenced),
otherwise casts itself to the exposed interface (the cast always succeeds
because the struct implements it) and delegates to `DispInvoke` with a null
`DISPPARAMS` pointer read as no arguments.  The middle component records
whether the call delegated to `DispInvoke`; the last is the handler state
after the call. -/
def SyncIPCHandler.Invoke {W : Type} (h : SyncIPCHandler W)
    (dispidmember : Int) (riid : RawGuidPtr) (_lcid : Nat) (wflags : Nat)
    (pdispparams : Option (List (List Nat))) :
    Except ComError (List Nat) × Bool × SyncIPCHandler W :=
  if riid.isNull then (Except.error ComError.unknownInterface, false, h)
  else if riid.pointee ≠ GUIDdefault then
    (Except.error ComError.unknownInterface, false, h)
  else
    let dispparams := pdispparams.getD []
    (DispInvoke h dispidmember wflags dispparams, true, h)

/-- A release event observed while dropping the tagged `VARIANT` wrapper in
`SyncIPCHandler::inject`. -/
inductive DropEvent where
  /-- The nested `pdispVal` interface reference was released. -/
  | dropInterface : DropEvent
  /-- The outer `VARIANT_0_0` `ManuallyDrop` was released. -/
  | dropOuter : DropEvent
deriving DecidableEq, Repr

/-- The tagged dynamic value (`VARIANT` with its nested `VARIANT_0_0`):
discriminant `vt` and the dispatch-interface payload. -/
structure TaggedVariant (W : Type) where
  vt : Nat
  pdispVal : Option (SyncIPCHandler W)

/-- `IDispatchVariant::drop`: releases the nested interface reference if and
only if the discriminant is `VT_DISPATCH`, then releases the outer value —
returned as the ordered list of release events. -/
def IDispatchVariant.dropEvents {W : Type} (v : TaggedVariant W) : List DropEvent :=
  (if v.vt = VT_DISPATCH then [DropEvent.dropInterface] else []) ++
    [DropEvent.dropOuter]

/-- `SyncIPCHandler::inject`: converts the handler into an `IDispatch`
reference, wraps it in a `VARIANT` tagged `VT_DISPATCH`, registers it under
the host-object name `ipc` via `AddHostObjectToScript` (an external engine
call, passed as an oracle and mapped to `WindowsError` on failure), and in
either case drops the `IDispatchVariant` wrapper at scope exit.  Returns the
result together with the release events of that drop. -/
def SyncIPCHandler.inject {W : Type} (h : SyncIPCHandler W)
    (addHostObjectToScript : String → TaggedVariant W → Except Nat Unit) :
    Except ComError Unit × List DropEvent :=
  let remote_obj : TaggedVariant W := { vt := VT_DISPATCH, pdispVal := some h }
  let result :=
    match addHostObjectToScript "ipc" remote_obj with
    | Except.ok () => Except.ok ()
    | Except.error hr => Except.error (ComError.windowsError hr)
  (result, IDispatchVariant.dropEvents remote_obj)

/-- A concrete adapter instance used by the witness theorems: window context
`5 : Nat`, callback appending the window value to the message. -/
def testHandler : SyncIPCHandler Nat :=
  { type_info := { data := DISPATCH_INTERFACE, lcid := 0x7F },
    window := 5,
    handler := fun w s => s ++ [w] }

/-- C1: for every message that decodes as well-formed text, `PostSyncMessage`
returns exactly the UTF-16 re-encoding of the native callback applied to the
window context and the decoded message, and the callback is invoked exactly
once, with the decoded message. -/
theorem postSyncMessage_wellformed {W : Type} (h : SyncIPCHandler W)
    (m s : List Nat) (hd : decodeUtf16 m = some s) :
    h.PostSyncMessage m =
      (encodeUtf16 (h.handler h.window s), [(h.window, s)], h) := by
  unfold SyncIPCHandler.PostSyncMessage
  rw [hd]

/-- Witness for C1 at the concrete adapter and the two-unit message
`[104, 105]`, which decodes to itself. -/
theorem postSyncMessage_wellformed_witness :
    testHandler.PostSyncMessage [104, 105] =
      (encodeUtf16 (testHandler.handler testHandler.window [104, 105]),
        [(testHandler.window, [104, 105])], testHandler) :=
  postSyncMessage_wellformed testHandler [104, 105] [104, 105] (by decide)

/-- C2: for every message that fails to decode as well-formed text,
`PostSyncMessage` returns the empty string and the callback is invoked zero
times; no failure is reported. -/
theorem postSyncMessage_malformed {W : Type} (h : SyncIPCHandler W)
    (m : List Nat) (hd : decodeUtf16 m = none) :
    h.PostSyncMessage m = ([], [], h) := by
  unfold SyncIPCHandler.PostSyncMessage
  rw [hd]

/-- Witness for C2 at the concrete adapter and the unpaired high surrogate
`[0xD800]`, which fails to decode. -/
theorem postSyncMessage_malformed_witness :
    testHandler.PostSyncMessage [0xD800] = ([], [], testHandler) :=
  postSyncMessage_malformed testHandler [0xD800] (by decide)

/-- C3: for every GUID other than the default GUID, both `GetIDsOfNames` and
`Invoke` fail with `DISP_E_UNKNOWNINTERFACE`, do not delegate to the OLE
name-resolution or dynamic-invocation routine, and leave the handler
unchanged, regardless of all other arguments. -/
theorem nondefault_riid_rejected {W : Type} (h : SyncIPCHandler W)
    (g : Nat) (hg : g ≠ GUIDdefault) (names : List String) (cnames : Nat)
    (lcid : Nat) (dispid : Int) (wflags : Nat)
    (dispparams : Option (List (List Nat))) :
    h.GetIDsOfNames ⟨false, g⟩ names cnames lcid =
      (Except.error ComError.unknownInterface, false, h) ∧
    h.Invoke dispid ⟨false, g⟩ lcid wflags dispparams =
      (Except.error ComError.unknownInterface, false, h) := by
  constructor
  · unfold SyncIPCHandler.GetIDsOfNames
    simp [hg]
  · unfold SyncIPCHandler.Invoke
    simp [hg]

/-- Witness for C3 at the concrete adapter and the non-default GUID 1. -/
theorem nondefault_riid_rejected_witness :
    testHandler.GetIDsOfNames ⟨false, 1⟩ ["PostSyncMessage"] 1 0 =
      (Except.error ComError.unknownInterface, false, testHandler) ∧
    testHandler.Invoke 0 ⟨false, 1⟩ 0 DISPATCH_METHOD (some [[104]]) =
      (Except.error ComError.unknownInterface, false, testHandler) :=
  nondefault_riid_rejected testHandler 1 (by decide) ["PostSyncMessage"] 1 0 0
    DISPATCH_METHOD (some [[104]])

/-- C4: `GetTypeInfo 0` returns the one stored type-information object on
every call, independent of the locale argument, and `GetTypeInfo i` fails
with `DISP_E_BADINDEX` for every `i ≠ 0`. -/
theorem getTypeInfo_index_spec {W : Type} (h : SyncIPCHandler W)
    (lcid lcid' : Nat) (i : Nat) (hi : i ≠ 0) :
    h.GetTypeInfo 0 lcid = (Except.ok h.type_info, h) ∧
    h.GetTypeInfo 0 lcid = h.GetTypeInfo 0 lcid' ∧
    h.GetTypeInfo i lcid = (Except.error ComError.badIndex, h) := by
  refine ⟨rfl, rfl, ?_⟩
  unfold SyncIPCHandler.GetTypeInfo
  simp [hi]

/-- Witness for C4 at the concrete adapter, locales 0 and 1, and the bad
index 1. -/
theorem getTypeInfo_index_spec_witness :
    testHandler.GetTypeInfo 0 0 = (Except.ok testHandler.type_info, testHandler) ∧
    testHandler.GetTypeInfo 0 0 = testHandler.GetTypeInfo 0 1 ∧
    testHandler.GetTypeInfo 1 0 = (Except.error ComError.badIndex, testHandler) :=
  getTypeInfo_index_spec testHandler 0 1 1 (by decide)

/-- C5: on every exit path of `inject` the tagged wrapper is released
exactly once (one outer release event), the nested interface reference is
dropped exactly once there — and in `IDispatchVariant::drop` generally, the
nested reference is dropped if and only if the discriminant is
`VT_DISPATCH` — and a registration failure with HRESULT `hr` is surfaced as
`WindowsError hr` while success yields `Ok`. -/
theorem inject_release_spec {W : Type} (h : SyncIPCHandler W)
    (reg : String → TaggedVariant W → Except Nat Unit) :
    (h.inject reg).2.count DropEvent.dropOuter = 1 ∧
    (h.inject reg).2.count DropEvent.dropInterface = 1 ∧
    (∀ v : TaggedVariant W,
      (IDispatchVariant.dropEvents v).count DropEvent.dropInterface =
        if v.vt = VT_DISPATCH then 1 else 0) ∧
    (∀ hr, reg "ipc" ⟨VT_DISPATCH, some h⟩ = Except.error hr →
      (h.inject reg).1 = Except.error (ComError.windowsError hr)) ∧
    (reg "ipc" ⟨VT_DISPATCH, some h⟩ = Except.ok () →
      (h.inject reg).1 = Except.ok ()) := by
  refine ⟨rfl, rfl, ?_, ?_, ?_⟩
  · intro v
    unfold IDispatchVariant.dropEvents
    by_cases hv : v.vt = VT_DISPATCH <;> simp [hv]
  · intro hr hreg
    simp only [SyncIPCHandler.inject, hreg]
  · intro hreg
    simp only [SyncIPCHandler.inject, hreg]

/-- Witness for C5 at the concrete adapter and a registration call that
fails with HRESULT 5. -/
theorem inject_release_spec_witness :
    (testHandler.inject (fun _ _ => Except.error 5)).2.count
        DropEvent.dropOuter = 1 ∧
    (testHandler.inject (fun _ _ => Except.error 5)).2.count
        DropEvent.dropInterface = 1 ∧
    (testHandler.inject (fun _ _ => Except.error 5)).1 =
      Except.error (ComError.windowsError 5) :=
  ⟨(inject_release_spec testHandler (fun _ _ => Except.error 5)).1,
   (inject_release_spec testHandler (fun _ _ => Except.error 5)).2.1,
   (inject_release_spec testHandler (fun _ _ => Except.error 5)).2.2.2.1 5 rfl⟩

/-- C6: `GetTypeInfoCount` returns `Ok 1` on every call, for every adapter
instance, leaving the adapter unchanged. -/
theorem getTypeInfoCount_always_one {W : Type} (h : SyncIPCHandler W) :
    h.GetTypeInfoCount = (Except.ok 1, h) :=
  rfl

/-- Witness for C6 at the concrete adapter. -/
theorem getTypeInfoCount_always_one_witness :
    testHandler.GetTypeInfoCount = (Except.ok 1, testHandler) :=
  getTypeInfoCount_always_one testHandler

/-- C7: the descriptor tables of every successfully constructed adapter are
the static `DISPATCH_INTERFACE`, which describes exactly one method named
`PostSyncMessage` with dispatch id 0, a single string-typed parameter named
`message`, string return type, and stdcall calling convention; and no
adapter operation changes the stored type information. -/
theorem descriptor_content_spec {W : Type} (hostLocale : Nat) (w : W)
    (f : W → List Nat → List Nat) (h : SyncIPCHandler W)
    (hnew : SyncIPCHandler.new hostLocale w f none = Except.ok h) :
    h.type_info.data = DISPATCH_INTERFACE ∧
    DISPATCH_INTERFACE.pmethdata.length = 1 ∧
    DISPATCH_INTERFACE.cMembers = 1 ∧
    (∀ m ∈ DISPATCH_INTERFACE.pmethdata,
      m.szName = "PostSyncMessage" ∧
      m.ppdata.map PARAMDATA.szName = ["message"] ∧
      m.ppdata.map PARAMDATA.vt = [VT_BSTR] ∧
      m.vtReturn = VT_BSTR ∧ m.cc = CC_STDCALL ∧ m.dispid = 0) ∧
    (∀ msg, ((h.PostSyncMessage msg).2.2).type_info = h.type_info) ∧
    (h.GetTypeInfoCount.2).type_info = h.type_info ∧
    (∀ i l, ((h.GetTypeInfo i l).2).type_info = h.type_info) ∧
    (∀ r n c l, ((h.GetIDsOfNames r n c l).2.2).type_info = h.type_info) ∧
    (∀ d r l wf p, ((h.Invoke d r l wf p).2.2).type_info = h.type_info) := by
  have hdata : h.type_info.data = DISPATCH_INTERFACE := by
    unfold SyncIPCHandler.new CreateDispTypeInfo at hnew
    simp only [Except.ok.injEq] at hnew
    rw [← hnew]
  refine ⟨hdata, by decide, by decide, by decide, ?_, rfl, ?_, ?_, ?_⟩
  · intro msg
    unfold SyncIPCHandler.PostSyncMessage
    cases decodeUtf16 msg <;> rfl
  · intro i l
    rfl
  · intro r n c l
    unfold SyncIPCHandler.GetIDsOfNames
    by_cases h1 : r.isNull <;> by_cases h2 : r.pointee ≠ GUIDdefault <;>
      simp [h1, h2]
  · intro d r l wf p
    unfold SyncIPCHandler.Invoke
    by_cases h1 : r.isNull <;> by_cases h2 : r.pointee ≠ GUIDdefault <;>
      simp [h1, h2]

/-- Witness for C7 at host locale 0, window 5, and the concrete callback:
construction succeeds and yields exactly the concrete adapter. -/
theorem descriptor_content_spec_witness :
    testHandler.type_info.data = DISPATCH_INTERFACE ∧
    DISPATCH_INTERFACE.pmethdata.length = 1 :=
  ⟨(descriptor_content_spec 0 5 (fun w s => s ++ [w]) testHandler rfl).1,
   (descriptor_content_spec 0 5 (fun w s => s ++ [w]) testHandler rfl).2.1⟩

/-- C8: name resolution is locale-independent: construction resolves the
invariant locale name to the fixed invariant locale identifier `0x7F`
regardless of the host locale, so construction under any two host locales
is identical, the stored descriptor carries that invariant identifier, and
`GetTypeInfo` and `GetIDsOfNames` return identical results for any two
locale arguments. -/
theorem locale_independent_spec {W : Type} (h : SyncIPCHandler W) :
    (∀ (hl1 hl2 : Nat) (w : W) (f : W → List Nat → List Nat)
        (e : Option Nat),
      SyncIPCHandler.new hl1 w f e = SyncIPCHandler.new hl2 w f e) ∧
    (∀ (hl : Nat) (w : W) (f : W → List Nat → List Nat)
        (h' : SyncIPCHandler W),
      SyncIPCHandler.new hl w f none = Except.ok h' →
        h'.type_info.lcid = 0x7F) ∧
    (∀ i l1 l2, h.GetTypeInfo i l1 = h.GetTypeInfo i l2) ∧
    (∀ r names c l1 l2,
      h.GetIDsOfNames r names c l1 = h.GetIDsOfNames r names c l2) := by
  refine ⟨?_, ?_, fun i l1 l2 => rfl, fun r names c l1 l2 => rfl⟩
  · intro hl1 hl2 w f e
    unfold SyncIPCHandler.new LocaleNameToLCID
    simp
  · intro hl w f h' hnew
    unfold SyncIPCHandler.new CreateDispTypeInfo LocaleNameToLCID at hnew
    simp only [Except.ok.injEq] at hnew
    rw [← hnew]
    simp [LOCALE_NAME_INVARIANT]

/-- Witness for C8 at the concrete adapter: construction under host locales
3 and 9 coincides, the constructed descriptor carries locale `0x7F`, and a
locale-varied `GetTypeInfo` pair coincides. -/
theorem locale_independent_spec_witness :
    SyncIPCHandler.new 3 (5 : Nat) (fun w s => s ++ [w]) none =
      SyncIPCHandler.new 9 (5 : Nat) (fun w s => s ++ [w]) none ∧
    testHandler.type_info.lcid = 0x7F ∧
    testHandler.GetTypeInfo 0 3 = testHandler.GetTypeInfo 0 9 :=
  ⟨(locale_independent_spec testHandler).1 3 9 5 (fun w s => s ++ [w]) none,
   (locale_independent_spec testHandler).2.1 3 5 (fun w s => s ++ [w])
     testHandler rfl,
   (locale_independent_spec testHandler).2.2.1 0 3 9⟩

/-- C9: `PostSyncMessage` passes the shared window context to the callback
unmodified (the invocation trace carries exactly the stored window value),
and every operation of the generic capability surface as well as
`PostSyncMessage` leaves the whole adapter — descriptor, window reference
and callback — unchanged. -/
theorem frame_and_window_spec {W : Type} (h : SyncIPCHandler W) :
    (∀ m s, decodeUtf16 m = some s →
      (h.PostSyncMessage m).2.1 = [(h.window, s)]) ∧
    (∀ m, (h.PostSyncMessage m).2.2 = h) ∧
    h.GetTypeInfoCount.2 = h ∧
    (∀ i l, (h.GetTypeInfo i l).2 = h) ∧
    (∀ r n c l, (h.GetIDsOfNames r n c l).2.2 = h) ∧
    (∀ d r l wf p, (h.Invoke d r l wf p).2.2 = h) := by
  refine ⟨?_, ?_, rfl, fun i l => rfl, ?_, ?_⟩
  · intro m s hd
    unfold SyncIPCHandler.PostSyncMessage
    rw [hd]
  · intro m
    unfold SyncIPCHandler.PostSyncMessage
    cases decodeUtf16 m <;> rfl
  · intro r n c l
    unfold SyncIPCHandler.GetIDsOfNames
    by_cases h1 : r.isNull <;> by_cases h2 : r.pointee ≠ GUIDdefault <;>
      simp [h1, h2]
  · intro d r l wf p
    unfold SyncIPCHandler.Invoke
    by_cases h1 : r.isNull <;> by_cases h2 : r.pointee ≠ GUIDdefault <;>
      simp [h1, h2]

/-- Witness for C9 at the concrete adapter and the message `[104]`. -/
theorem frame_and_window_spec_witness :
    (testHandler.PostSyncMessage [104]).2.1 =
      [(testHandler.window, [104])] ∧
    (testHandler.PostSyncMessage [104]).2.2 = testHandler ∧
    testHandler.GetTypeInfoCount.2 = testHandler :=
  ⟨(frame_and_window_spec testHandler).1 [104] [104] (by decide),
   (frame_and_window_spec testHandler).2.1 [104],
   (frame_and_window_spec testHandler).2.2.1⟩

/-- C10: a null `riid` pointer makes both `GetIDsOfNames` and `Invoke` fail
with `DISP_E_UNKNOWNINTERFACE` without delegating, the result never depends
on whatever value lies at the null address (the pointer is never
dereferenced), and a call delegates if and only if the pointer is non-null
and points at the default GUID. -/
theorem null_riid_spec {W : Type} (h : SyncIPCHandler W) :
    (∀ g names c l, h.GetIDsOfNames ⟨true, g⟩ names c l =
      (Except.error ComError.unknownInterface, false, h)) ∧
    (∀ d g l wf p, h.Invoke d ⟨true, g⟩ l wf p =
      (Except.error ComError.unknownInterface, false, h)) ∧
    (∀ g g' names c l,
      h.GetIDsOfNames ⟨true, g⟩ names c l =
        h.GetIDsOfNames ⟨true, g'⟩ names c l) ∧
    (∀ d g g' l wf p,
      h.Invoke d ⟨true, g⟩ l wf p = h.Invoke d ⟨true, g'⟩ l wf p) ∧
    (∀ r names c l, (h.GetIDsOfNames r names c l).2.1 = true ↔
      (r.isNull = false ∧ r.pointee = GUIDdefault)) ∧
    (∀ d r l wf p, (h.Invoke d r l wf p).2.1 = true ↔
      (r.isNull = false ∧ r.pointee = GUIDdefault)) := by
  refine ⟨fun g names c l => rfl, fun d g l wf p => rfl,
    fun g g' names c l => rfl, fun d g g' l wf p => rfl, ?_, ?_⟩
  · intro r names c l
    unfold SyncIPCHandler.GetIDsOfNames
    by_cases h1 : r.isNull <;> by_cases h2 : r.pointee = GUIDdefault <;>
      simp [h1, h2]
  · intro d r l wf p
    unfold SyncIPCHandler.Invoke
    by_cases h1 : r.isNull <;> by_cases h2 : r.pointee = GUIDdefault <;>
      simp [h1, h2]

/-- Witness for C10 at the concrete adapter: a null pointer is rejected
without delegation even when the null address holds the default GUID, the
result is independent of the value at the null address, and a non-null
pointer to the default GUID delegates. -/
theorem null_riid_spec_witness :
    testHandler.GetIDsOfNames ⟨true, GUIDdefault⟩ ["PostSyncMessage"] 1 0 =
      (Except.error ComError.unknownInterface, false, testHandler) ∧
    testHandler.Invoke 0 ⟨true, GUIDdefault⟩ 0 DISPATCH_METHOD none =
      (Except.error ComError.unknownInterface, false, testHandler) ∧
    testHandler.GetIDsOfNames ⟨true, 0⟩ [] 0 0 =
      testHandler.GetIDsOfNames ⟨true, 7⟩ [] 0 0 ∧
    ((testHandler.GetIDsOfNames ⟨false, GUIDdefault⟩ [] 0 0).2.1 = true ↔
      ((false : Bool) = false ∧ GUIDdefault = GUIDdefault)) :=
  ⟨(null_riid_spec testHandler).1 GUIDdefault ["PostSyncMessage"] 1 0,
   (null_riid_spec testHandler).2.1 0 GUIDdefault 0 DISPATCH_METHOD none,
   (null_riid_spec testHandler).2.2.1 0 7 [] 0 0,
   (null_riid_spec testHandler).2.2.2.2.1 ⟨false, GUIDdefault⟩ [] 0 0⟩

end SyncIPC
